import Mathlib

/-!
Verification of the `kyanite` interactive TCP client (`src/script.py`).

The script connects one stream socket to a host/port (defaults
`"localhost"`, `8080`), then loops: it reads a line from the operator,
exits (printing `"Exiting..."` and calling `close()`) when the lowercased
line equals `"exit"`, and otherwise sends the UTF-8 encoding of the line
with `sendall`.  A `socket.error` during the loop prints
`"Error receiving data: <e>"` and breaks; a `KeyboardInterrupt` prints
`"Interrupted by user, closing connection."` and breaks; neither of those
two paths calls `close()`.

The embedding makes the environment explicit: each loop iteration consumes
one `IterEnv` describing what the blocking calls of that iteration would
do (what `input()` returns, or that it is interrupted, and whether
`sendall` succeeds, raises `socket.error`, or is interrupted).  The
connect phase likewise consumes a `ConnectEnv`.  Results record the lines
printed by `print`, the byte payloads handed to `sendall`, the number of
`close()` calls, the terminal state, and whether an exception escaped
uncaught.
-/

/-- ASCII lowercasing of one character, as Python `str.lower` acts on
ASCII letters.  The script compares against the ASCII literal `"exit"`,
so ASCII lowercasing is faithful for that comparison. -/
def lowerChar (c : Char) : Char :=
  if 'A' ≤ c ∧ c ≤ 'Z' then Char.ofNat (c.toNat + 32) else c

/-- Embedding of Python `msg.lower()` (ASCII fragment). -/
def pyLower (s : String) : String := String.mk (s.data.map lowerChar)

/-- Embedding of Python `str.strip()` (the spec's word "trimmed"):
whitespace removed from both ends.  The script itself never trims; this
definition only serves to state the spec's trimming claim. -/
def pyStrip (s : String) : String :=
  String.mk (((s.data.dropWhile Char.isWhitespace).reverse.dropWhile
    Char.isWhitespace).reverse)

/-- UTF-8 encoding of one Unicode code point, as a list of byte values. -/
def utf8EncodeChar (c : Nat) : List Nat :=
  if c < 0x80 then [c]
  else if c < 0x800 then
    [0xC0 ||| (c >>> 6), 0x80 ||| (c &&& 0x3F)]
  else if c < 0x10000 then
    [0xE0 ||| (c >>> 12), 0x80 ||| ((c >>> 6) &&& 0x3F), 0x80 ||| (c &&& 0x3F)]
  else
    [0xF0 ||| (c >>> 18), 0x80 ||| ((c >>> 12) &&& 0x3F),
     0x80 ||| ((c >>> 6) &&& 0x3F), 0x80 ||| (c &&& 0x3F)]

/-- Embedding of Python `msg.encode("utf-8")`: the UTF-8 bytes of the
string, exactly, with no delimiter or terminator appended. -/
def utf8Encode (s : String) : List Nat :=
  (s.data.map (fun c => utf8EncodeChar c.toNat)).flatten

/-- What the environment makes of the blocking `input()` call of one
iteration: either a line of text, or a `KeyboardInterrupt` delivered
while blocked on input. -/
inductive InputRes : Type where
  | line (s : String) : InputRes
  | interrupt : InputRes
deriving DecidableEq, Repr

/-- What the environment makes of the blocking `sendall` call of one
iteration (consulted only if a send is attempted): success, a
`socket.error` carrying message text, or a `KeyboardInterrupt`
delivered while blocked on send. -/
inductive SendRes : Type where
  | ok : SendRes
  | err (e : String) : SendRes
  | interrupt : SendRes
deriving DecidableEq, Repr

/-- The environment of one loop iteration. -/
structure IterEnv : Type where
  inp : InputRes
  send : SendRes
deriving DecidableEq, Repr

/-- Terminal status of the interactive loop. -/
inductive TermState : Type where
  | closedNormal : TermState
  | closedError : TermState
  | closedInterrupted : TermState
  | stillRunning : TermState
deriving DecidableEq, Repr

/-- Observable outcome of running the loop: lines printed by `print`,
payloads handed to `sendall` (in order), number of `close()` calls,
and the terminal status. -/
structure LoopResult : Type where
  output : List String
  sent : List (List Nat)
  closes : Nat
  term : TermState
deriving DecidableEq, Repr

/-- Embedding of the `while True:` loop of `src/script.py` (lines 23-38),
run against a finite trace of iteration environments.  Per iteration:
`input()` yields a line or is interrupted; on a line whose `lower()`
equals `"exit"` the script prints `"Exiting..."`, calls `close()`, and
breaks; otherwise it calls `sendall` on the UTF-8 bytes of the line; a
`socket.error` from the iteration prints the receive-worded diagnostic
and breaks without `close()`; a `KeyboardInterrupt` prints the interrupt
notice and breaks without `close()`.  An exhausted trace leaves the loop
still running. -/
def runLoop : List IterEnv → LoopResult
  | [] => ⟨[], [], 0, TermState.stillRunning⟩
  | ev :: rest =>
    match ev.inp with
    | InputRes.interrupt =>
        ⟨["Interrupted by user, closing connection."], [], 0,
          TermState.closedInterrupted⟩
    | InputRes.line msg =>
        if pyLower msg = "exit" then
          ⟨["Exiting..."], [], 1, TermState.closedNormal⟩
        else
          match ev.send with
          | SendRes.ok =>
              let r := runLoop rest
              ⟨r.output, utf8Encode msg :: r.sent, r.closes, r.term⟩
          | SendRes.err e =>
              ⟨["Error receiving data: " ++ e], [], 0, TermState.closedError⟩
          | SendRes.interrupt =>
              ⟨["Interrupted by user, closing connection."], [], 0,
                TermState.closedInterrupted⟩

/-- What the environment makes of the socket-creation/connect phase:
success, a `socket.error` carrying message text, or a
`KeyboardInterrupt` delivered while blocked inside the phase. -/
inductive ConnectEnv : Type where
  | ok : ConnectEnv
  | sockErr (e : String) : ConnectEnv
  | interrupt : ConnectEnv
deriving DecidableEq, Repr

/-- What `connect_to_server` comes back with: an open connection, `None`,
or an exception that escapes the function uncaught. -/
inductive ConnectRes : Type where
  | conn : ConnectRes
  | none : ConnectRes
  | uncaught : ConnectRes
deriving DecidableEq, Repr

/-- Observable outcome of `connect_to_server`: the returned value and the
lines printed. -/
structure ConnectOut : Type where
  result : ConnectRes
  output : List String
deriving DecidableEq, Repr

/-- Default `host` argument of `connect_to_server` (line 5). -/
def defaultHost : String := "localhost"

/-- Default `port` argument of `connect_to_server` (line 5). -/
def defaultPort : Nat := 8080

/-- Embedding of `connect_to_server` (lines 5-17).  The `try` block
creates the socket and connects; on success it prints
`"Connected to <host>:<port>"` and returns the socket; a `socket.error`
is caught, prints `"Error connecting to server: <e>"`, and `None` is
returned; any other exception (in particular `KeyboardInterrupt`) is not
caught and escapes with nothing printed. -/
def connect_to_server (env : ConnectEnv) (host : String) (port : Nat) :
    ConnectOut :=
  match env with
  | ConnectEnv.ok =>
      ⟨ConnectRes.conn, ["Connected to " ++ host ++ ":" ++ toString port]⟩
  | ConnectEnv.sockErr e =>
      ⟨ConnectRes.none, ["Error connecting to server: " ++ e]⟩
  | ConnectEnv.interrupt => ⟨ConnectRes.uncaught, []⟩

/-- Observable outcome of the whole script: lines printed, payloads sent,
`close()` call count, whether the interactive loop was entered, the
loop's terminal status (`stillRunning` when the loop was never entered),
and whether an exception escaped the whole script uncaught. -/
structure ProgResult : Type where
  output : List String
  sent : List (List Nat)
  closes : Nat
  loopEntered : Bool
  term : TermState
  crashed : Bool
deriving DecidableEq, Repr

/-- Embedding of the module-level code (lines 20-38):
`connection = connect_to_server()` with the default arguments, then
`if connection:` guards the interactive loop.  On `None` the loop is
skipped; on an uncaught exception from the connect phase the script
crashes with nothing further happening; nothing outside the loop catches
anything. -/
def program (cenv : ConnectEnv) (envs : List IterEnv) : ProgResult :=
  let c := connect_to_server cenv defaultHost defaultPort
  match c.result with
  | ConnectRes.conn =>
      let r := runLoop envs
      ⟨c.output ++ r.output, r.sent, r.closes, true, r.term, false⟩
  | ConnectRes.none =>
      ⟨c.output, [], 0, false, TermState.stillRunning, false⟩
  | ConnectRes.uncaught =>
      ⟨c.output, [], 0, false, TermState.stillRunning, true⟩

/-- Sanity check of the byte encoding, matching testable property 5 of the
spec: encoding "hello" gives the five bytes 68 65 6c 6c 6f. -/
theorem utf8Encode_hello : utf8Encode "hello" = [0x68, 0x65, 0x6c, 0x6c, 0x6f] := by
  decide

/-- Sanity check of the lowercasing embedding. -/
theorem pyLower_mixed : pyLower "ExIt" = "exit" := by decide

/-- Sanity check of the trimming embedding. -/
theorem pyStrip_spaces : pyStrip " exit " = "exit" := by decide

/-- Shared invariant: over any iteration trace, the number of close calls
the loop makes is one exactly when the loop terminated on the exit
keyword, and zero otherwise (still running, send error, or interrupt). -/
theorem runLoop_closes (envs : List IterEnv) :
    (runLoop envs).closes =
      (if (runLoop envs).term = TermState.closedNormal then 1 else 0) := by
  induction envs with
  | nil => simp [runLoop]
  | cons ev rest ih =>
    cases hinp : ev.inp with
    | interrupt => simp [runLoop, hinp]
    | line msg =>
      by_cases hx : pyLower msg = "exit"
      · simp [runLoop, hinp, hx]
      · cases hs : ev.send with
        | ok => simpa [runLoop, hinp, hx, hs] using ih
        | err e => simp [runLoop, hinp, hx, hs]
        | interrupt => simp [runLoop, hinp, hx, hs]

/-- C1 counterexample: the claim requires the exit branch for every line
whose trimmed lowercased value equals "exit", but the script never trims.
On the input line "exit " (trailing space) the trimmed lowercased value
is "exit", yet the loop sends the line instead of printing the notice,
makes no close call, and does not terminate. -/
theorem C1_counterexample :
    pyLower (pyStrip "exit ") = "exit" ∧
    runLoop [⟨InputRes.line "exit ", SendRes.ok⟩] =
      ⟨[], [utf8Encode "exit "], 0, TermState.stillRunning⟩ := by
  exact ⟨by decide, by decide⟩

/-- C1 (amended): for every operator input line whose lowercased value
(no trimming) equals "exit", the loop prints "Exiting...", calls close
on the Connection, and terminates in state Closed-Normal. -/
theorem C1_exit_branch (msg : String) (sr : SendRes) (rest : List IterEnv)
    (h : pyLower msg = "exit") :
    runLoop (⟨InputRes.line msg, sr⟩ :: rest) =
      ⟨["Exiting..."], [], 1, TermState.closedNormal⟩ := by
  simp [runLoop, h]

/-- C1 witness: the amended claim at the concrete input "EXIT". -/
theorem C1_exit_branch_witness :
    runLoop [⟨InputRes.line "EXIT", SendRes.ok⟩] =
      ⟨["Exiting..."], [], 1, TermState.closedNormal⟩ :=
  C1_exit_branch "EXIT" SendRes.ok [] (by decide)

/-- C2: for every input string that is not the exit keyword, the loop
hands sendall exactly the UTF-8 encoding of the string — no delimiter or
terminator appended — and, when the send succeeds, the loop continues
with the remaining trace unchanged (returns to awaiting input). -/
theorem C2_send_exact (msg : String) (rest : List IterEnv)
    (h : pyLower msg ≠ "exit") :
    runLoop (⟨InputRes.line msg, SendRes.ok⟩ :: rest) =
      ⟨(runLoop rest).output, utf8Encode msg :: (runLoop rest).sent,
        (runLoop rest).closes, (runLoop rest).term⟩ := by
  simp [runLoop, h]

/-- C2 witness: sending the concrete input "hello" on an otherwise empty
trace transmits exactly its UTF-8 bytes and leaves the loop running. -/
theorem C2_send_exact_witness :
    runLoop [⟨InputRes.line "hello", SendRes.ok⟩] =
      ⟨(runLoop []).output, utf8Encode "hello" :: (runLoop []).sent,
        (runLoop []).closes, (runLoop []).term⟩ :=
  C2_send_exact "hello" [] (by decide)

/-- C3 counterexample: the claim says the connection is closed on every
terminating path, but on a transmission error the loop breaks without
any close call: the terminal state is Closed-Error and the close count
is zero. -/
theorem C3_counterexample :
    (runLoop [⟨InputRes.line "ping", SendRes.err "broken pipe"⟩]).term =
      TermState.closedError ∧
    (runLoop [⟨InputRes.line "ping", SendRes.err "broken pipe"⟩]).closes = 0 := by
  exact ⟨by decide, by decide⟩

/-- C3 (amended): the loop terminates on each of the three paths — exit
keyword, transmission error, interrupt — but the connection is
explicitly closed only on the exit path; the error and interrupt paths
terminate with no close call. -/
theorem C3_termination_paths (rest : List IterEnv) (msg e : String)
    (s1 s2 : SendRes) (hm : pyLower msg ≠ "exit") :
    (runLoop (⟨InputRes.line "exit", s1⟩ :: rest)).term =
      TermState.closedNormal ∧
    (runLoop (⟨InputRes.line "exit", s1⟩ :: rest)).closes = 1 ∧
    (runLoop (⟨InputRes.line msg, SendRes.err e⟩ :: rest)).term =
      TermState.closedError ∧
    (runLoop (⟨InputRes.line msg, SendRes.err e⟩ :: rest)).closes = 0 ∧
    (runLoop (⟨InputRes.interrupt, s2⟩ :: rest)).term =
      TermState.closedInterrupted ∧
    (runLoop (⟨InputRes.interrupt, s2⟩ :: rest)).closes = 0 := by
  refine ⟨?_, ?_, ?_, ?_, ?_, ?_⟩ <;>
    simp [runLoop, hm, show pyLower "exit" = "exit" from rfl]

/-- C3 witness: the amended claim at concrete inputs. -/
theorem C3_termination_paths_witness :
    (runLoop [⟨InputRes.line "exit", SendRes.ok⟩]).term =
      TermState.closedNormal ∧
    (runLoop [⟨InputRes.line "exit", SendRes.ok⟩]).closes = 1 ∧
    (runLoop [⟨InputRes.line "hi", SendRes.err "reset"⟩]).term =
      TermState.closedError ∧
    (runLoop [⟨InputRes.line "hi", SendRes.err "reset"⟩]).closes = 0 ∧
    (runLoop [⟨InputRes.interrupt, SendRes.ok⟩]).term =
      TermState.closedInterrupted ∧
    (runLoop [⟨InputRes.interrupt, SendRes.ok⟩]).closes = 0 :=
  C3_termination_paths [] "hi" "reset" SendRes.ok SendRes.ok (by decide)

/-- C4: when sendall raises a socket error, the loop prints the
diagnostic containing the underlying error text, makes no close call,
and terminates in state Closed-Error. -/
theorem C4_send_error (msg e : String) (rest : List IterEnv)
    (h : pyLower msg ≠ "exit") :
    runLoop (⟨InputRes.line msg, SendRes.err e⟩ :: rest) =
      ⟨["Error receiving data: " ++ e], [], 0, TermState.closedError⟩ := by
  simp [runLoop, h]

/-- C4 witness: the claim at a concrete message and error. -/
theorem C4_send_error_witness :
    runLoop [⟨InputRes.line "hello", SendRes.err "boom"⟩] =
      ⟨["Error receiving data: " ++ "boom"], [], 0, TermState.closedError⟩ :=
  C4_send_error "hello" "boom" [] (by decide)

/-- C5: an interrupt delivered while blocked on input, or while blocked
on send, makes the loop print "Interrupted by user, closing connection."
and terminate with no close call; the script does not crash (the
interrupt is caught), so no unhandled fault is raised. -/
theorem C5_interrupt (s : SendRes) (msg : String) (rest : List IterEnv)
    (h : pyLower msg ≠ "exit") :
    runLoop (⟨InputRes.interrupt, s⟩ :: rest) =
      ⟨["Interrupted by user, closing connection."], [], 0,
        TermState.closedInterrupted⟩ ∧
    runLoop (⟨InputRes.line msg, SendRes.interrupt⟩ :: rest) =
      ⟨["Interrupted by user, closing connection."], [], 0,
        TermState.closedInterrupted⟩ ∧
    (program ConnectEnv.ok (⟨InputRes.interrupt, s⟩ :: rest)).crashed =
      false := by
  refine ⟨?_, ?_, ?_⟩ <;> simp [runLoop, program, connect_to_server, h]

/-- C5 witness: the claim at a concrete interrupt trace. -/
theorem C5_interrupt_witness :
    runLoop [⟨InputRes.interrupt, SendRes.ok⟩] =
      ⟨["Interrupted by user, closing connection."], [], 0,
        TermState.closedInterrupted⟩ ∧
    runLoop [⟨InputRes.line "hey", SendRes.interrupt⟩] =
      ⟨["Interrupted by user, closing connection."], [], 0,
        TermState.closedInterrupted⟩ ∧
    (program ConnectEnv.ok [⟨InputRes.interrupt, SendRes.ok⟩]).crashed =
      false :=
  C5_interrupt SendRes.ok "hey" [] (by decide)

/-- C6: for every host and port, a socket error during creation or
connect is caught: connect_to_server prints the diagnostic containing
the error and returns None; the script then skips the loop entirely,
sends nothing, and does not crash. -/
theorem C6_connect_failure (host : String) (port : Nat) (e : String)
    (envs : List IterEnv) :
    connect_to_server (ConnectEnv.sockErr e) host port =
      ⟨ConnectRes.none, ["Error connecting to server: " ++ e]⟩ ∧
    (program (ConnectEnv.sockErr e) envs).loopEntered = false ∧
    (program (ConnectEnv.sockErr e) envs).sent = [] ∧
    (program (ConnectEnv.sockErr e) envs).crashed = false := by
  refine ⟨rfl, ?_, ?_, ?_⟩ <;> simp [program, connect_to_server]

/-- C7 counterexample: the claim says the connection is closed exactly
once over every execution, but an execution terminated by an interrupt
ends with no close call at all: the close count is zero. -/
theorem C7_counterexample :
    (program ConnectEnv.ok [⟨InputRes.interrupt, SendRes.ok⟩]).term =
      TermState.closedInterrupted ∧
    (program ConnectEnv.ok [⟨InputRes.interrupt, SendRes.ok⟩]).closes = 0 := by
  exact ⟨by decide, by decide⟩

/-- C7 (amended): over every execution the connection is created once at
startup and closed at most once; the close count is one exactly when the
loop terminated on the exit keyword, and zero in every other case — in
particular zero on error-terminated (Closed-Error) and on
interrupt-terminated (Closed-Interrupted) executions, and close is never
invoked twice. -/
theorem C7_close_counts (cenv : ConnectEnv) (envs : List IterEnv) :
    (program cenv envs).closes ≤ 1 ∧
    (program cenv envs).closes =
      (if (program cenv envs).term = TermState.closedNormal then 1 else 0) := by
  have h := runLoop_closes envs
  cases cenv with
  | ok =>
      refine ⟨?_, ?_⟩
      · show (runLoop envs).closes ≤ 1
        rw [h]; split <;> simp
      · show (runLoop envs).closes =
          if (runLoop envs).term = TermState.closedNormal then 1 else 0
        exact h
  | sockErr e => exact ⟨Nat.zero_le 1, rfl⟩
  | interrupt => exact ⟨Nat.zero_le 1, rfl⟩

/-- C8: the default arguments of connect_to_server are host "localhost"
and port 8080, and every successful connection returns the open
connection and prints exactly "Connected to " followed by the host, a
colon, and the port. -/
theorem C8_connect_success (host : String) (port : Nat) :
    defaultHost = "localhost" ∧ defaultPort = 8080 ∧
    connect_to_server ConnectEnv.ok host port =
      ⟨ConnectRes.conn, ["Connected to " ++ host ++ ":" ++ toString port]⟩ ∧
    connect_to_server ConnectEnv.ok defaultHost defaultPort =
      ⟨ConnectRes.conn, ["Connected to localhost:8080"]⟩ := by
  exact ⟨rfl, rfl, rfl, by decide⟩

/-- C9: the diagnostic printed on a send failure is the literal text
"Error receiving data: " followed by the error — receive wording even
though the failing operation is a send; nothing about sending appears
before the error text. -/
theorem C9_receive_wording (msg e : String) (rest : List IterEnv)
    (h : pyLower msg ≠ "exit") :
    (runLoop (⟨InputRes.line msg, SendRes.err e⟩ :: rest)).output =
      ["Error receiving data: " ++ e] := by
  simp [runLoop, h]

/-- C9 witness: the claim at a concrete message and error. -/
theorem C9_receive_wording_witness :
    (runLoop [⟨InputRes.line "ok?", SendRes.err "timed out"⟩]).output =
      ["Error receiving data: " ++ "timed out"] :=
  C9_receive_wording "ok?" "timed out" [] (by decide)

/-- C10: connect_to_server catches only socket errors: an interrupt
delivered during the connect phase escapes uncaught with nothing
printed, and the whole script crashes without entering the loop and
without printing any notice. -/
theorem C10_interrupt_uncaught (host : String) (port : Nat)
    (envs : List IterEnv) :
    connect_to_server ConnectEnv.interrupt host port =
      ⟨ConnectRes.uncaught, []⟩ ∧
    program ConnectEnv.interrupt envs =
      ⟨[], [], 0, false, TermState.stillRunning, true⟩ := by
  exact ⟨rfl, rfl⟩
